import Mathlib

/-!
Verification of the multi-agent orchestration and reconciliation engine.

Shallow embedding of the Python sources into Lean 4:

* `src/agents/base.py`               — `AgentResult` and its construction invariant
* `src/orchestrator/core.py`         — `TaskContext`, `execute_session`
* `src/orchestrator/cache_manager.py`— `CacheManager` (get/set/delete, TTL, compression)
* `src/tools/tool_validate_consistency.py` — conflict detection
* `src/tools/tool_resolve_conflicts.py`    — conflict resolution
* `src/agents/agent_validation.py`   — consistency scoring

Modelling conventions:
* Python floats are modelled as exact rationals (`ℚ`); every property proved here
  (bounds, monotonicity, comparisons against the literal constants of the source)
  is insensitive to rounding.
* Python dicts are modelled as association lists in insertion order (CPython 3.7+
  dicts preserve insertion order); keys are unique in every dict the source builds.
* Fallible Python code (`raise` / `try`-`except`) is modelled with `Except`.
-/

namespace AgenticSpec

/-! ## Python values

A Python value as the cache / tools manipulate them: the JSON-encodable scalars,
lists, tuples and string-keyed dicts.  Mutual inductives are used instead of
nested `List` so that structural recursion and induction stay elementary.
-/

mutual

/-- Embedded Python value (scalars, lists, tuples, string-keyed dicts). -/
inductive PyVal where
  | pynone
  | pybool (b : Bool)
  | pyint (n : Int)
  | pystr (s : String)
  | pylist (xs : PyList)
  | pytuple (xs : PyList)
  | pydict (fs : PyFields)

/-- A Python list/tuple body. -/
inductive PyList where
  | nil
  | cons (hd : PyVal) (tl : PyList)

/-- The entries of a Python dict with string keys, in insertion order. -/
inductive PyFields where
  | nil
  | cons (k : String) (v : PyVal) (tl : PyFields)

end

/-! Python `==` on embedded values.  `bool` is a subclass of `int` in Python, so
`True == 1`; tuples and lists never compare equal.  Dict comparison is modelled
order-sensitively (the sources only ever compare dicts that were built in the
same order, if at all). -/

/-- The integer value of a Python bool (`bool` is an `int` subclass). -/
def boolAsInt (b : Bool) : Int := if b then 1 else 0

mutual

/-- Python `==` on embedded values. -/
def pyEqV : PyVal → PyVal → Bool
  | .pynone, .pynone => true
  | .pybool a, .pybool b => a == b
  | .pybool a, .pyint n => boolAsInt a == n
  | .pyint n, .pybool a => n == boolAsInt a
  | .pyint m, .pyint n => m == n
  | .pystr s, .pystr t => s == t
  | .pylist xs, .pylist ys => pyEqL xs ys
  | .pytuple xs, .pytuple ys => pyEqL xs ys
  | .pydict fs, .pydict gs => pyEqF fs gs
  | _, _ => false

/-- Python `==` on list bodies (element-wise). -/
def pyEqL : PyList → PyList → Bool
  | .nil, .nil => true
  | .cons x xs, .cons y ys => pyEqV x y && pyEqL xs ys
  | _, _ => false

/-- Python `==` on dict bodies (order-sensitive model, see above). -/
def pyEqF : PyFields → PyFields → Bool
  | .nil, .nil => true
  | .cons k v tl, .cons k' v' tl' => k == k' && pyEqV v v' && pyEqF tl tl'
  | _, _ => false

end

/-! ## JSON values

The image of `json.dumps` / `json.loads`: what survives a trip through the
serialized text.  `json.dumps(..., default=str)` maps tuples to arrays; `loads`
brings arrays back as lists. -/

mutual

/-- A JSON value. -/
inductive JVal where
  | jnull
  | jbool (b : Bool)
  | jint (n : Int)
  | jstr (s : String)
  | jarr (xs : JList)
  | jobj (fs : JFields)

/-- A JSON array body. -/
inductive JList where
  | nil
  | cons (hd : JVal) (tl : JList)

/-- A JSON object body (ordered, string keys). -/
inductive JFields where
  | nil
  | cons (k : String) (v : JVal) (tl : JFields)

end

mutual

/-- Value-level semantics of `json.dumps(value, default=str)` followed by
`json.loads`: the JSON value that the serialized text denotes.  Tuples are
encoded as JSON arrays (CPython `json` behaviour). -/
def toJsonV : PyVal → JVal
  | .pynone => .jnull
  | .pybool b => .jbool b
  | .pyint n => .jint n
  | .pystr s => .jstr s
  | .pylist xs => .jarr (toJsonL xs)
  | .pytuple xs => .jarr (toJsonL xs)
  | .pydict fs => .jobj (toJsonF fs)

/-- Array image of a Python list/tuple body under `json.dumps`. -/
def toJsonL : PyList → JList
  | .nil => .nil
  | .cons x xs => .cons (toJsonV x) (toJsonL xs)

/-- Object image of a Python dict body under `json.dumps`. -/
def toJsonF : PyFields → JFields
  | .nil => .nil
  | .cons k v tl => .cons k (toJsonV v) (toJsonF tl)

end

mutual

/-- Value produced by `json.loads` for a given JSON value: arrays come back as
Python lists, objects as dicts. -/
def fromJsonV : JVal → PyVal
  | .jnull => .pynone
  | .jbool b => .pybool b
  | .jint n => .pyint n
  | .jstr s => .pystr s
  | .jarr xs => .pylist (fromJsonL xs)
  | .jobj fs => .pydict (fromJsonF fs)

/-- `json.loads` on a JSON array body. -/
def fromJsonL : JList → PyList
  | .nil => .nil
  | .cons x xs => .cons (fromJsonV x) (fromJsonL xs)

/-- `json.loads` on a JSON object body. -/
def fromJsonF : JFields → PyFields
  | .nil => .nil
  | .cons k v tl => .cons k (fromJsonV v) (fromJsonF tl)

end

mutual

/-- True when the value contains no tuple at any depth (the JSON-faithful
fragment: `loads (dumps v)` returns `v` itself for exactly these values). -/
def tupleFreeV : PyVal → Bool
  | .pynone => true
  | .pybool _ => true
  | .pyint _ => true
  | .pystr _ => true
  | .pylist xs => tupleFreeL xs
  | .pytuple _ => false
  | .pydict fs => tupleFreeF fs

/-- `tupleFreeV` over a list body. -/
def tupleFreeL : PyList → Bool
  | .nil => true
  | .cons x xs => tupleFreeV x && tupleFreeL xs

/-- `tupleFreeV` over dict entries. -/
def tupleFreeF : PyFields → Bool
  | .nil => true
  | .cons _ v tl => tupleFreeV v && tupleFreeF tl

end

mutual

/-- JSON round-trip is the identity on tuple-free values. -/
theorem fromJson_toJson_V : (v : PyVal) → tupleFreeV v = true → fromJsonV (toJsonV v) = v
  | .pynone, _ => rfl
  | .pybool _, _ => rfl
  | .pyint _, _ => rfl
  | .pystr _, _ => rfl
  | .pylist xs, h => by
      simp only [toJsonV, fromJsonV]
      exact congrArg PyVal.pylist (fromJson_toJson_L xs (by simpa [tupleFreeV] using h))
  | .pytuple _, h => by simp [tupleFreeV] at h
  | .pydict fs, h => by
      simp only [toJsonV, fromJsonV]
      exact congrArg PyVal.pydict (fromJson_toJson_F fs (by simpa [tupleFreeV] using h))

/-- JSON round-trip on list bodies. -/
theorem fromJson_toJson_L : (xs : PyList) → tupleFreeL xs = true → fromJsonL (toJsonL xs) = xs
  | .nil, _ => rfl
  | .cons x xs, h => by
      have h' := h
      simp only [tupleFreeL, Bool.and_eq_true] at h'
      simp only [toJsonL, fromJsonL]
      rw [fromJson_toJson_V x h'.1, fromJson_toJson_L xs h'.2]

/-- JSON round-trip on dict bodies. -/
theorem fromJson_toJson_F : (fs : PyFields) → tupleFreeF fs = true → fromJsonF (toJsonF fs) = fs
  | .nil, _ => rfl
  | .cons k v tl, h => by
      have h' := h
      simp only [tupleFreeF, Bool.and_eq_true] at h'
      simp only [toJsonF, fromJsonF]
      rw [fromJson_toJson_V v h'.1, fromJson_toJson_F tl h'.2]

end

/-! ## Python string primitives

ASCII-faithful models of the `str` methods the tools use.  (CPython also
handles non-ASCII whitespace/case; every string the claims touch is ASCII.) -/

/-- Python `str.strip()` whitespace set (ASCII part). -/
def isPySpace (c : Char) : Bool :=
  c = ' ' || c = '\t' || c = '\n' || c = '\x0d' || c = '\x0b' || c = '\x0c'

/-- Python `str.strip()`. -/
def pyStrip (s : String) : String :=
  ⟨((s.data.dropWhile isPySpace).reverse.dropWhile isPySpace).reverse⟩

/-- Python `str.upper()` (ASCII). -/
def pyUpper (s : String) : String := ⟨s.data.map Char.toUpper⟩

/-- Python `str.lower()` (ASCII). -/
def pyLower (s : String) : String := ⟨s.data.map Char.toLower⟩

/-- Python `str.rstrip('/')`. -/
def pyRstripSlash (s : String) : String :=
  ⟨(s.data.reverse.dropWhile (· = '/')).reverse⟩

/-- Left-to-right, non-overlapping removal of `"www."`, as in
`str.replace('www.', '')`. -/
def removeWWWChars : List Char → List Char
  | 'w' :: 'w' :: 'w' :: '.' :: rest => removeWWWChars rest
  | c :: rest => c :: removeWWWChars rest
  | [] => []

/-- Python `str.replace('www.', '')`. -/
def pyRemoveWWW (s : String) : String := ⟨removeWWWChars s.data⟩

/-- Python `needle in haystack` substring test. -/
def isSubstring (needle : List Char) : List Char → Bool
  | [] => needle.isEmpty
  | c :: rest => List.isPrefixOf needle (c :: rest) || isSubstring needle rest

/-- Python `str.startswith(p)`. -/
def pyStartsWith (s p : String) : Bool := List.isPrefixOf p.data s.data

/-- Last character of a string, if any; `s.endswith(c)` for a one-character
suffix `c` is `lastChar? s = some c`. -/
def lastChar? (s : String) : Option Char := s.data.getLast?

/-- Python `s[:-1]`. -/
def dropLastChar (s : String) : String := ⟨s.data.dropLast⟩

/-! Python `str()` / `repr()` on embedded values.  `str(x) = repr(x)` for every
value except strings themselves; inside containers strings are shown with
`repr` (quoted).  String `repr` is modelled with single quotes and the
common escapes; the claims only evaluate it on plain ASCII text. -/

/-- Escapes of one character inside a Python string `repr`. -/
def pyReprStrChar (c : Char) : List Char :=
  if c = '\\' then ['\\', '\\']
  else if c = '\'' then ['\\', '\'']
  else if c = '\n' then ['\\', 'n']
  else if c = '\x0d' then ['\\', 'r']
  else if c = '\t' then ['\\', 't']
  else [c]

/-- Python `repr` of a string (single-quoted form). -/
def pyReprStr (s : String) : String :=
  ⟨'\'' :: (s.data.flatMap pyReprStrChar) ++ ['\'']⟩

mutual

/-- Python `repr()` of an embedded value. -/
def pyReprV : PyVal → String
  | .pynone => "None"
  | .pybool true => "True"
  | .pybool false => "False"
  | .pyint n => toString n
  | .pystr s => pyReprStr s
  | .pylist xs => "[" ++ pyReprL xs ++ "]"
  | .pytuple .nil => "()"
  | .pytuple (.cons x .nil) => "(" ++ pyReprV x ++ ",)"
  | .pytuple xs => "(" ++ pyReprL xs ++ ")"
  | .pydict fs => "\x7b" ++ pyReprF fs ++ "\x7d"

/-- Comma-separated `repr`s of a list body. -/
def pyReprL : PyList → String
  | .nil => ""
  | .cons x .nil => pyReprV x
  | .cons x (.cons y tl) => pyReprV x ++ ", " ++ pyReprL (.cons y tl)

/-- Comma-separated `repr`s of dict entries. -/
def pyReprF : PyFields → String
  | .nil => ""
  | .cons k v .nil => pyReprStr k ++ ": " ++ pyReprV v
  | .cons k v (.cons k' v' tl) => pyReprStr k ++ ": " ++ pyReprV v ++ ", " ++ pyReprF (.cons k' v' tl)

end

/-- Python `str()` of an embedded value: the string itself for strings,
`repr` otherwise. -/
def pyStr : PyVal → String
  | .pystr s => s
  | v => pyReprV v

/-! ## Python `int()` on decimal strings

Models CPython `int(s)`: surrounding whitespace is ignored, an optional sign
precedes a non-empty digit run.  (Underscore digit grouping is not modelled;
no TTL string uses it.) -/

/-- Digits of a decimal run folded into a `Nat`; `none` when a non-digit
appears or the run is empty. -/
def digitsToNat? : List Char → Option Nat
  | [] => none
  | cs => cs.foldl (fun acc c =>
      match acc with
      | none => none
      | some n => if c.isDigit then some (n * 10 + (c.toNat - '0'.toNat)) else none)
      (some 0)

/-- CPython `int(s)` on a decimal literal: `ValueError` is an `Except.error`. -/
def pyInt (s : String) : Except String Int :=
  let t := (pyStrip s).data
  match t with
  | '+' :: rest =>
      match digitsToNat? rest with
      | some n => .ok (Int.ofNat n)
      | none => .error ("invalid literal for int(): " ++ s)
  | '-' :: rest =>
      match digitsToNat? rest with
      | some n => .ok (-(Int.ofNat n))
      | none => .error ("invalid literal for int(): " ++ s)
  | rest =>
      match digitsToNat? rest with
      | some n => .ok (Int.ofNat n)
      | none => .error ("invalid literal for int(): " ++ s)

/-! ## JSON text

The exact character stream of `json.dumps(value, default=str)` with CPython's
default separators (`", "`, `": "`) and `ensure_ascii=True` escaping.  Its
length is the byte length of the UTF-8 encoding (the output is pure ASCII),
which is what `_should_compress` compares against the threshold. -/

/-- Lowercase hex digit. -/
def hexDigit (n : Nat) : Char :=
  if n < 10 then Char.ofNat ('0'.toNat + n) else Char.ofNat ('a'.toNat + (n - 10))

/-- Four-digit lowercase hex, as in a `\uXXXX` escape. -/
def hex4 (n : Nat) : List Char :=
  [hexDigit (n / 4096 % 16), hexDigit (n / 256 % 16), hexDigit (n / 16 % 16), hexDigit (n % 16)]

/-- The characters `json.dumps` emits for one character of a string
(`ensure_ascii=True`). -/
def jsonEscapeChar (c : Char) : List Char :=
  if c = '"' then ['\\', '"']
  else if c = '\\' then ['\\', '\\']
  else if c = '\n' then ['\\', 'n']
  else if c = '\t' then ['\\', 't']
  else if c = '\x0d' then ['\\', 'r']
  else if c = '\x08' then ['\\', 'b']
  else if c = '\x0c' then ['\\', 'f']
  else if c.toNat < 32 then '\\' :: 'u' :: hex4 c.toNat
  else if c.toNat < 127 then [c]
  else if c.toNat ≤ 65535 then '\\' :: 'u' :: hex4 c.toNat
  else
    let v := c.toNat - 65536
    ('\\' :: 'u' :: hex4 (55296 + v / 1024)) ++ ('\\' :: 'u' :: hex4 (56320 + v % 1024))

/-- `json.dumps` escaping of a whole string body. -/
def jsonEscape (cs : List Char) : List Char := cs.flatMap jsonEscapeChar

mutual

/-- Character stream of `json.dumps` for a JSON value (default separators,
`ensure_ascii=True`). -/
def dumpsChars : JVal → List Char
  | .jnull => ['n', 'u', 'l', 'l']
  | .jbool true => ['t', 'r', 'u', 'e']
  | .jbool false => ['f', 'a', 'l', 's', 'e']
  | .jint n => (toString n).data
  | .jstr s => '"' :: jsonEscape s.data ++ ['"']
  | .jarr xs => '[' :: dumpsList xs ++ [']']
  | .jobj fs => '\x7b' :: dumpsFields fs ++ ['\x7d']

/-- `json.dumps` of an array body, `", "`-separated. -/
def dumpsList : JList → List Char
  | .nil => []
  | .cons x .nil => dumpsChars x
  | .cons x (.cons y tl) => dumpsChars x ++ ',' :: ' ' :: dumpsList (.cons y tl)

/-- `json.dumps` of an object body, `", "`-separated with `": "` after keys. -/
def dumpsFields : JFields → List Char
  | .nil => []
  | .cons k v .nil => '"' :: jsonEscape k.data ++ '"' :: ':' :: ' ' :: dumpsChars v
  | .cons k v (.cons k' v' tl) =>
      '"' :: jsonEscape k.data ++ '"' :: ':' :: ' ' :: dumpsChars v
        ++ ',' :: ' ' :: dumpsFields (.cons k' v' tl)

end

/-! ## `src/agents/base.py` — `AgentResult`

`AgentResult.__post_init__` raises a `ValueError` when `confidence_score` is
outside `[0.0, 1.0]` or `execution_time` is negative; dataclass construction
therefore fails instead of clamping.  `mkAgentResult` is that construction. -/

/-- Standardized result of one agent run (`AgentResult` dataclass fields). -/
structure AgentResult where
  agent_name : String
  success : Bool
  data : List (String × PyVal)
  confidence_score : ℚ
  execution_time : ℚ
  errors : List String
  warnings : List String
  metadata : List (String × PyVal)

/-- Dataclass construction of `AgentResult` including `__post_init__`
validation: `.error` is the raised `ValueError`. -/
def mkAgentResult (agent_name : String) (success : Bool) (data : List (String × PyVal))
    (confidence_score : ℚ) (execution_time : ℚ) (errors warnings : List String)
    (metadata : List (String × PyVal)) : Except String AgentResult :=
  if ¬ (0 ≤ confidence_score ∧ confidence_score ≤ 1) then
    .error "confidence_score must be between 0.0 and 1.0"
  else if execution_time < 0 then
    .error "execution_time must be positive"
  else
    .ok ⟨agent_name, success, data, confidence_score, execution_time, errors, warnings, metadata⟩

/-! ## `src/orchestrator/core.py` — session context and `execute_session`

`OrchestrationEngine.execute_session` creates a `TaskContext` via
`_create_context` and returns an `"initialized"` summary; the body contains no
task-graph construction, no dependency inspection and no agent execution (the
source marks the pipeline `à implémenter`).  The returned list of executed
agent tasks is therefore always empty in the embedding. -/

/-- Association-list lookup modelling `dict.get` (first matching key). -/
def lookupAssoc {α : Type} (xs : List (String × α)) (k : String) : Option α :=
  match xs with
  | [] => none
  | (k', v) :: rest => if k' = k then some v else lookupAssoc rest k

/-- Shared session context (`TaskContext` dataclass).  `graph` and `cache` are
opaque external handles. -/
structure TaskContext where
  session_id : String
  enterprise_name : String
  current_depth : Int
  max_depth : PyVal
  collected_data : List (String × PyVal) := []
  graph : Option Unit := none
  cache : Option Unit := none
  config : List (String × PyVal) := []
  errors : List String := []
  warnings : List String := []
  metrics : List (String × ℚ) := []
  start_time : ℚ := 0
  api_calls_count : Int := 0

/-- `OrchestrationEngine._create_context` (uuid and clock passed in as
`sessionId` / `startTime`). -/
def createContext (sessionId enterpriseName : String) (sessionConfig : List (String × PyVal))
    (startTime : ℚ) : TaskContext :=
  { session_id := sessionId
    enterprise_name := enterpriseName
    current_depth := 0
    max_depth := (lookupAssoc sessionConfig "max_depth").getD (.pyint 3)
    config := sessionConfig
    start_time := startTime }

/-- Summary dict returned by `execute_session`. -/
structure SessionSummary where
  session_id : String
  enterprise_name : String
  status : String
  message : String
  execution_time : ℚ

/-- `OrchestrationEngine.execute_session`.  Besides the summary it returns the
list of agent tasks the session executed — none, since the source body only
creates the context and returns.  An `.error` would model a raised exception;
no statement of the body raises on dict inputs. -/
def executeSession (enterpriseName : String) (sessionConfig : List (String × PyVal))
    (sessionId : String) (startTime elapsed : ℚ) :
    Except String (SessionSummary × List String) :=
  let _context := createContext sessionId enterpriseName sessionConfig startTime
  .ok ({ session_id := sessionId
         enterprise_name := enterpriseName
         status := "initialized"
         message := "Session created successfully"
         execution_time := elapsed }, [])

/-- A session configuration declaring a dependency cycle between two agents
(task A depends on B and B on A). -/
def cyclicSessionConfig : List (String × PyVal) :=
  [("agents", .pydict (.cons "A" (.pydict (.cons "dependencies"
      (.pylist (.cons (.pystr "B") .nil)) .nil))
    (.cons "B" (.pydict (.cons "dependencies"
      (.pylist (.cons (.pystr "A") .nil)) .nil)) .nil)))]

/-! ## `src/orchestrator/cache_manager.py` — `CacheManager`

The Redis byte strings a cache entry can hold are identified with their
content: `jsonBytes j` is the UTF-8 text `json.dumps` produced for `j`
(`json.dumps` is injective, so this identification is faithful), `gzipBytes b`
is the gzip stream compressing the bytes `b`, and `junkBytes n` stands for any
byte string that is neither valid gzip, nor valid JSON, nor a valid pickle —
on such bytes `_deserialize_data` raises (its pickle fallback fails).
`gzip.decompress` succeeds exactly on gzip streams (magic-number check) and
inverts `gzip.compress`. -/

/-- Cached byte strings, identified with their content (see above). -/
inductive CacheBytes where
  | jsonBytes (j : JVal)
  | gzipBytes (b : CacheBytes)
  | junkBytes (n : Nat)

/-- Byte length of a cached byte string.  JSON text is pure ASCII
(`ensure_ascii=True`), so its byte length is its character count.  The length
of a gzip stream is not used by any embedded operation (`_should_compress` only
measures the uncompressed serialization); it is modelled as the inner length. -/
def byteLen : CacheBytes → Nat
  | .jsonBytes j => (dumpsChars j).length
  | .gzipBytes b => byteLen b
  | .junkBytes n => n

/-- Per-category cache policy entry (`cache_policy` dict values); absent keys
are `none`, mirroring `dict.get` defaults at the use sites. -/
structure CachePolicy where
  ttl : Option String
  compress : Option Bool

/-- The `CacheManager.config` dict. -/
structure CacheConfig where
  cachePolicy : List (String × CachePolicy)
  compressionThreshold : Option Nat
  compressionAlgorithm : Option String
  keyPrefixes : List (String × String)

/-- The fallback configuration `_load_config` builds when no config file
exists. -/
def defaultConfig : CacheConfig :=
  { cachePolicy :=
      [("enterprise_data", ⟨some "7d", some true⟩),
       ("agent_results", ⟨some "12h", some true⟩),
       ("validation_results", ⟨some "6h", some false⟩)]
    compressionThreshold := some 1024
    compressionAlgorithm := some "gzip"
    keyPrefixes :=
      [("enterprise", "ent:"), ("agent_result", "agent:"),
       ("session", "sess:"), ("validation", "valid:")] }

/-- The `CacheManager.stats` counters. -/
structure CacheStats where
  hits : Nat := 0
  misses : Nat := 0
  sets : Nat := 0
  deletes : Nat := 0

/-- Miss-counter increment (`self.stats['misses'] += 1`). -/
def bumpMisses (st : CacheStats) : CacheStats := { st with misses := st.misses + 1 }

/-- Hit-counter increment. -/
def bumpHits (st : CacheStats) : CacheStats := { st with hits := st.hits + 1 }

/-- Set-counter increment. -/
def bumpSets (st : CacheStats) : CacheStats := { st with sets := st.sets + 1 }

/-- Delete-counter increment. -/
def bumpDeletes (st : CacheStats) : CacheStats := { st with deletes := st.deletes + 1 }

/-- `CacheManager._get_ttl_seconds`: suffix-qualified duration to seconds.
`int(...)` failures propagate as the raised `ValueError`. -/
def getTtlSeconds (ttlStr : String) : Except String Int :=
  if lastChar? ttlStr = some 's' then
    pyInt (dropLastChar ttlStr)
  else if lastChar? ttlStr = some 'm' then
    (· * 60) <$> pyInt (dropLastChar ttlStr)
  else if lastChar? ttlStr = some 'h' then
    (· * 3600) <$> pyInt (dropLastChar ttlStr)
  else if lastChar? ttlStr = some 'd' then
    (· * 86400) <$> pyInt (dropLastChar ttlStr)
  else
    pyInt ttlStr

/-- `CacheManager._should_compress`. -/
def shouldCompress (cfg : CacheConfig) (data : CacheBytes) (policy : CachePolicy) : Bool :=
  if policy.compress.getD false = false then false
  else decide (cfg.compressionThreshold.getD 1024 < byteLen data)

/-- `CacheManager._compress_data` (gzip when the configured algorithm is gzip,
identity otherwise). -/
def compressData (cfg : CacheConfig) (data : CacheBytes) : CacheBytes :=
  if cfg.compressionAlgorithm.getD "gzip" = "gzip" then .gzipBytes data else data

/-- `CacheManager._decompress_data`: try `gzip.decompress`, fall back to the
raw bytes when the payload is not a gzip stream. -/
def decompressData : CacheBytes → CacheBytes
  | .gzipBytes b => b
  | b => b

/-- `CacheManager._serialize_data`: `json.dumps(data, default=str)` — total on
the embedded value domain, so the pickle fallback is never taken. -/
def serializeData (v : PyVal) : CacheBytes := .jsonBytes (toJsonV v)

/-- `CacheManager._deserialize_data`: `json.loads` on JSON text, otherwise the
pickle fallback, which raises on non-pickle bytes (the raise is the
`.error`). -/
def deserializeData : CacheBytes → Except String PyVal
  | .jsonBytes j => .ok (fromJsonV j)
  | .gzipBytes _ => .error "deserialization failed"
  | .junkBytes _ => .error "deserialization failed"

/-- `CacheManager._build_key`. -/
def buildKey (cfg : CacheConfig) (category key : String) : String :=
  (lookupAssoc cfg.keyPrefixes category).getD "" ++ key

/-- `CacheManager.get`.  `connected` is whether `self.redis` is non-`None`;
`backend` is the backend's behaviour on this call: `.error` a raised backend
exception, `.ok none` a missing key, `.ok (some bytes)` a stored payload.
The outer `try`/`except` of the source makes the result total. -/
def cacheGet (cfg : CacheConfig) (st : CacheStats) (connected : Bool)
    (backend : Except String (Option CacheBytes)) (category key : String) :
    Option PyVal × CacheStats :=
  if !connected then (none, st)
  else
    let _cacheKey := buildKey cfg category key
    match backend with
    | .error _ => (none, bumpMisses st)
    | .ok none => (none, bumpMisses st)
    | .ok (some data) =>
        let decompressed := decompressData data
        match deserializeData decompressed with
        | .error _ => (none, bumpMisses st)
        | .ok result => (some result, bumpHits st)

/-- What `redis.setex` stored. -/
structure StoredEntry where
  key : String
  ttl : Int
  data : CacheBytes

/-- `CacheManager.set`.  `backendOk` is whether the `setex` call succeeds
(`false` models a raised backend exception, absorbed by the source's
`try`/`except`).  Returns the Python boolean result, the updated counters, and
the entry the backend stored, if any. -/
def cacheSet (cfg : CacheConfig) (st : CacheStats) (connected : Bool) (backendOk : Bool)
    (category key : String) (value : PyVal) (ttl : Option Int) :
    Bool × CacheStats × Option StoredEntry :=
  if !connected then (false, st, none)
  else
    let cacheKey := buildKey cfg category key
    let policy := (lookupAssoc cfg.cachePolicy category).getD ⟨none, none⟩
    let serialized := serializeData value
    let finalData :=
      if shouldCompress cfg serialized policy then compressData cfg serialized else serialized
    match (match ttl with
           | some t => Except.ok t
           | none => getTtlSeconds (policy.ttl.getD "1h")) with
    | .error _ => (false, st, none)
    | .ok t =>
        if backendOk then (true, bumpSets st, some ⟨cacheKey, t, finalData⟩)
        else (false, st, none)

/-- `CacheManager.delete`.  `backend` is the `redis.delete` behaviour:
`.error` a raised exception, `.ok n` the number of keys removed. -/
def cacheDelete (cfg : CacheConfig) (st : CacheStats) (connected : Bool)
    (backend : Except String Int) (category key : String) : Bool × CacheStats :=
  if !connected then (false, st)
  else
    let _cacheKey := buildKey cfg category key
    match backend with
    | .error _ => (false, st)
    | .ok n => (decide (0 < n), bumpDeletes st)

/-! ## `src/tools/tool_validate_consistency.py` — conflict detection -/

/-- A detected disagreement (`conflicts` list entries built by
`_detect_conflicts`). -/
structure Conflict where
  field : String
  source1 : String
  value1 : PyVal
  source2 : String
  value2 : PyVal
  severity : String

/-- `ToolValidateConsistency._values_are_consistent`. -/
def valuesAreConsistent (value1 value2 : PyVal) (field : String) : Bool :=
  if pyEqV value1 value2 then true
  else if field = "name" then
    pyStrip (pyUpper (pyStr value1)) == pyStrip (pyUpper (pyStr value2))
  else if field = "url" then
    let url1 := pyRstripSlash (pyStrip (pyLower (pyStr value1)))
    let url2 := pyRstripSlash (pyStrip (pyLower (pyStr value2)))
    pyRemoveWWW url1 == pyRemoveWWW url2
  else if field = "siren" then
    pyStrip (pyStr value1) == pyStrip (pyStr value2)
  else
    pyStrip (pyStr value1) == pyStrip (pyStr value2)

/-- `ToolValidateConsistency._get_conflict_severity`. -/
def getConflictSeverity (field : String) : String :=
  if field = "siren" ∨ field = "id" then "critical"
  else if field = "name" ∨ field = "url" then "important"
  else "minor"

/-- Conflicts between one ordered pair of sources: the fields of the first
source that the second source also carries are compared.  (CPython iterates
the intersection of the key sets in unspecified hash order; dict keys are
unique, so only the iteration order differs from this embedding.) -/
def fieldConflicts (name1 : String) (data1 : List (String × PyVal))
    (name2 : String) (data2 : List (String × PyVal)) : List Conflict :=
  data1.filterMap fun kv =>
    match lookupAssoc data2 kv.1 with
    | none => none
    | some v2 =>
        if valuesAreConsistent kv.2 v2 kv.1 then none
        else some ⟨kv.1, name1, kv.2, name2, v2, getConflictSeverity kv.1⟩

/-- `ToolValidateConsistency._detect_conflicts`: every unordered pair of
sources is compared once, in list order (`i < j`). -/
def detectConflicts : List (String × List (String × PyVal)) → List Conflict
  | [] => []
  | (n1, d1) :: rest =>
      (rest.flatMap fun nd => fieldConflicts n1 d1 nd.1 nd.2) ++ detectConflicts rest

/-! ## `src/tools/tool_resolve_conflicts.py` — conflict resolution -/

/-- One candidate value inside a conflict's `values` list; each field mirrors
`value_info.get(...)` with its default applied at the use site. -/
structure ValueInfo where
  value : Option PyVal
  source : Option String
  confidence : Option ℚ

/-- A resolution dict as returned by the `_resolve_*` helpers.  The numeric
interpolation inside the `reason` of the confidence strategy (`:.2f`) is
elided; `reason` carries no semantics. -/
structure ToolResolution where
  field : String
  chosen_value : Option PyVal
  chosen_source : Option String
  reason : String
  confidence : ℚ
  method : String

/-- `ToolResolveConflicts.source_priorities` with the `.get(source, 0.3)`
default folded in. -/
def sourcePriorities (source : String) : ℚ :=
  if source = "inpi" then 9/10
  else if source = "official" then 8/10
  else if source = "api" then 7/10
  else if source = "web" then 6/10
  else if source = "manual" then 1/2
  else if source = "unknown" then 3/10
  else 3/10

/-- Priority of one candidate (`self.source_priorities.get(value_info.get('source', 'unknown'), 0.3)`). -/
def priorityOf (vi : ValueInfo) : ℚ := sourcePriorities (vi.source.getD "unknown")

/-- The scan loop of `_resolve_by_source_priority`: best value, best priority
and best source, updated on strict improvement. -/
def priorityScan : List ValueInfo → Option PyVal → ℚ → Option String →
    Option PyVal × ℚ × Option String
  | [], bestValue, bestPriority, bestSource => (bestValue, bestPriority, bestSource)
  | vi :: rest, bestValue, bestPriority, bestSource =>
      let source := vi.source.getD "unknown"
      let priority := sourcePriorities source
      if bestPriority < priority then priorityScan rest vi.value priority (some source)
      else priorityScan rest bestValue bestPriority bestSource

/-- String Python interpolates for an `Option String` (`None` for `none`). -/
def optStr : Option String → String
  | none => "None"
  | some s => s

/-- `ToolResolveConflicts._resolve_by_source_priority`. -/
def resolveBySourcePriority (field : String) (values : List ValueInfo) : ToolResolution :=
  let scanned := priorityScan values none (-1) none
  { field := field
    chosen_value := scanned.1
    chosen_source := scanned.2.2
    reason := "Source prioritaire (" ++ optStr scanned.2.2 ++ ")"
    confidence := scanned.2.1
    method := "source_priority" }

/-- The scan loop of `_resolve_by_confidence`. -/
def confidenceScan : List ValueInfo → Option PyVal → ℚ → Option String →
    Option PyVal × ℚ × Option String
  | [], bestValue, bestConfidence, bestSource => (bestValue, bestConfidence, bestSource)
  | vi :: rest, bestValue, bestConfidence, bestSource =>
      let confidence := vi.confidence.getD 0
      if bestConfidence < confidence then confidenceScan rest vi.value confidence vi.source
      else confidenceScan rest bestValue bestConfidence bestSource

/-- `ToolResolveConflicts._resolve_by_confidence`. -/
def resolveByConfidence (field : String) (values : List ValueInfo) : ToolResolution :=
  let scanned := confidenceScan values none (-1) none
  { field := field
    chosen_value := scanned.1
    chosen_source := scanned.2.2
    reason := "Confiance la plus élevée"
    confidence := scanned.2.1
    method := "confidence" }

/-- `ToolResolveConflicts._resolve_url_conflict`: prefer the first
`https://`-prefixed value, else fall back to source priority. -/
def resolveUrlConflict (field : String) (values : List ValueInfo) : ToolResolution :=
  match values.filter (fun v => pyStartsWith (pyStr (v.value.getD (.pystr ""))) "https://") with
  | chosen :: _ =>
      { field := field
        chosen_value := chosen.value
        chosen_source := chosen.source
        reason := "URL HTTPS préférée"
        confidence := 4/5
        method := "url_preference" }
  | [] => resolveBySourcePriority field values

/-- The legal-form markers of `_resolve_name_conflict`. -/
def legalForms : List String := ["SA", "SARL", "SAS", "Inc", "Corp", "LLC", "Ltd"]

/-- First candidate whose uppercased value contains a legal-form marker. -/
def findLegalForm : List ValueInfo → Option ValueInfo
  | [] => none
  | vi :: rest =>
      if legalForms.any
          (fun f => isSubstring f.data (pyUpper (pyStr (vi.value.getD (.pystr "")))).data) then
        some vi
      else findLegalForm rest

/-- `ToolResolveConflicts._resolve_name_conflict`. -/
def resolveNameConflict (field : String) (values : List ValueInfo) : ToolResolution :=
  match findLegalForm values with
  | some vi =>
      { field := field
        chosen_value := vi.value
        chosen_source := vi.source
        reason := "Nom avec forme juridique"
        confidence := 7/10
        method := "name_preference" }
  | none => resolveBySourcePriority field values

/-- `ToolResolveConflicts._resolve_single_conflict` (the `conflict.get` dict
accesses applied by the caller: `field` defaults to `''`, `values` to `[]`). -/
def resolveSingleConflict (field : String) (values : List ValueInfo) : Option ToolResolution :=
  if values.isEmpty then none
  else if field = "siren" then some (resolveBySourcePriority field values)
  else if field = "url" then some (resolveUrlConflict field values)
  else if field = "name" then some (resolveNameConflict field values)
  else some (resolveByConfidence field values)

/-! ## `src/agents/agent_validation.py` — consistency scoring -/

/-- A resolution dict produced by `AgentValidation._resolve_conflicts_fake`
(only its presence in the list matters to the score). -/
structure ValResolution where
  conflict_id : String
  resolution_method : String
  resolved_value : Option PyVal
  confidence : ℚ

/-- `AgentValidation._calculate_consistency_score`: a source-count base score
capped at 0.8, minus 0.1 per conflict, plus 0.05 per resolution, clamped to
`[0, 1]`; `0.0` for an empty `collected_data`. -/
def calculateConsistencyScore (collectedData : List (String × PyVal))
    (conflicts : List Conflict) (resolved : List ValResolution) : ℚ :=
  if collectedData.isEmpty then 0
  else
    let baseScore : ℚ := min (4/5) ((collectedData.length : ℚ) * (1/5))
    let conflictPenalty : ℚ := (conflicts.length : ℚ) * (1/10)
    let resolutionBonus : ℚ := (resolved.length : ℚ) * (1/20)
    max 0 (min 1 (baseScore - conflictPenalty + resolutionBonus))

/-! ## Claims -/

/-- C1: constructing an `AgentResult` with a `confidence_score` outside
`[0, 1]` or a negative `execution_time` fails at construction with a
`ValueError` (never silently clamped); every successfully constructed
`AgentResult` satisfies `0 ≤ confidence_score ≤ 1` and `execution_time ≥ 0`,
with both fields stored exactly as passed. -/
theorem agentResult_construction_invariant :
    (∀ (an : String) (ok : Bool) (d : List (String × PyVal)) (cs et : ℚ)
        (errs ws : List String) (md : List (String × PyVal)),
        (cs < 0 ∨ 1 < cs ∨ et < 0) →
        ∃ msg, mkAgentResult an ok d cs et errs ws md = .error msg)
  ∧ (∀ (an : String) (ok : Bool) (d : List (String × PyVal)) (cs et : ℚ)
        (errs ws : List String) (md : List (String × PyVal)) (r : AgentResult),
        mkAgentResult an ok d cs et errs ws md = .ok r →
        0 ≤ r.confidence_score ∧ r.confidence_score ≤ 1 ∧ 0 ≤ r.execution_time ∧
        r.confidence_score = cs ∧ r.execution_time = et) := by
  constructor
  · intro an ok d cs et errs ws md hbad
    unfold mkAgentResult
    by_cases h1 : 0 ≤ cs ∧ cs ≤ 1
    · have het : et < 0 := by
        rcases hbad with h | h | h
        · exact absurd h1.1 (not_le.mpr h)
        · exact absurd h1.2 (not_le.mpr h)
        · exact h
      rw [if_neg (not_not_intro h1), if_pos het]
      exact ⟨_, rfl⟩
    · rw [if_pos h1]
      exact ⟨_, rfl⟩
  · intro an ok d cs et errs ws md r hok
    unfold mkAgentResult at hok
    by_cases h1 : 0 ≤ cs ∧ cs ≤ 1
    · rw [if_neg (not_not_intro h1)] at hok
      by_cases h2 : et < 0
      · rw [if_pos h2] at hok
        exact absurd hok (by simp)
      · rw [if_neg h2] at hok
        have hr : r = ⟨an, ok, d, cs, et, errs, ws, md⟩ := by
          cases hok
          rfl
        subst hr
        exact ⟨h1.1, h1.2, le_of_not_lt h2, rfl, rfl⟩
    · rw [if_pos h1] at hok
      exact absurd hok (by simp)

/-- C1 witness: a confidence score of 2 is rejected, and a successful
construction with score 1/2 and time 0 satisfies the invariant. -/
theorem agentResult_construction_invariant_witness :
    (∃ msg, mkAgentResult "a" true [] 2 1 [] [] [] = .error msg)
  ∧ (0 ≤ (⟨"a", true, [], 1/2, 0, [], [], []⟩ : AgentResult).confidence_score ∧
     (⟨"a", true, [], 1/2, 0, [], [], []⟩ : AgentResult).confidence_score ≤ 1 ∧
     0 ≤ (⟨"a", true, [], 1/2, 0, [], [], []⟩ : AgentResult).execution_time ∧
     (⟨"a", true, [], 1/2, 0, [], [], []⟩ : AgentResult).confidence_score = 1/2 ∧
     (⟨"a", true, [], 1/2, 0, [], [], []⟩ : AgentResult).execution_time = 0) :=
  ⟨agentResult_construction_invariant.1 "a" true [] 2 1 [] [] []
      (Or.inr (Or.inl (by norm_num))),
   agentResult_construction_invariant.2 "a" true [] (1/2) 0 [] [] [] _
      (by norm_num [mkAgentResult])⟩

/-- C2: `execute_session` performs no dependency-graph validation at all — for
every enterprise name and session configuration (in particular the cyclic
`cyclicSessionConfig`) it returns the `"initialized"` success summary and
executes zero agent tasks, instead of rejecting a cyclic configuration as a
fatal error.  The claimed cycle rejection is absent from the source (the
pipeline is explicitly left unimplemented). -/
theorem executeSession_never_rejects :
    (∀ (name : String) (cfg : List (String × PyVal)) (sid : String) (t0 el : ℚ),
        executeSession name cfg sid t0 el =
          .ok ({ session_id := sid, enterprise_name := name, status := "initialized",
                 message := "Session created successfully", execution_time := el }, []))
  ∧ (∃ s, executeSession "Acme" cyclicSessionConfig "sid-1" 0 0 = .ok (s, [])
        ∧ s.status = "initialized") :=
  ⟨fun _ _ _ _ _ => rfl, ⟨_, rfl, rfl⟩⟩

/-- C3: with a live connection, `Cache.get` converts a raised backend error, a
missing key, and an undeserializable payload into an absent result with the
miss counter incremented (and only it); `Cache.set` converts a backend error
into a `False` return with the counters untouched.  Totality of the embedded
operations reflects that the source catches every exception. -/
theorem cache_absorbs_backend_errors :
    ∀ (cfg : CacheConfig) (st : CacheStats) (category key msg : String) (n : Nat)
      (v : PyVal) (ttl : Option Int),
      cacheGet cfg st true (.error msg) category key = (none, bumpMisses st)
    ∧ cacheGet cfg st true (.ok none) category key = (none, bumpMisses st)
    ∧ cacheGet cfg st true (.ok (some (.junkBytes n))) category key = (none, bumpMisses st)
    ∧ (cacheSet cfg st true false category key v ttl).1 = false
    ∧ (cacheSet cfg st true false category key v ttl).2.1 = st := by
  intro cfg st category key msg n v ttl
  refine ⟨rfl, rfl, rfl, ?_, ?_⟩ <;>
  · rcases ttl with _ | t
    · unfold cacheSet
      rcases h : getTtlSeconds
          ((((lookupAssoc cfg.cachePolicy category).getD ⟨none, none⟩).ttl).getD "1h") with e | k <;>
        simp [h]
    · rfl

/-- C10: with no live backend connection (`self.redis is None`), `get` returns
absent, `set` returns `False` and `delete` returns `False`, none of them
raising and none of them touching the statistics counters. -/
theorem cache_disconnected_noop :
    ∀ (cfg : CacheConfig) (st : CacheStats) (category key : String)
      (backendG : Except String (Option CacheBytes)) (backendOk : Bool)
      (backendD : Except String Int) (v : PyVal) (ttl : Option Int),
      cacheGet cfg st false backendG category key = (none, st)
    ∧ cacheSet cfg st false backendOk category key v ttl = (false, st, none)
    ∧ cacheDelete cfg st false backendD category key = (false, st) :=
  fun _ _ _ _ _ _ _ _ _ => ⟨rfl, rfl, rfl⟩

/-- Appending a one-character string makes that character the last one. -/
theorem lastChar?_append_char (s : String) (c : Char) : lastChar? (s ++ ⟨[c]⟩) = some c := by
  show List.getLast? (s.data ++ [c]) = some c
  exact List.getLast?_concat _

/-- Dropping the last character undoes appending a one-character string. -/
theorem dropLastChar_append_char (s : String) (c : Char) : dropLastChar (s ++ ⟨[c]⟩) = s := by
  show String.mk (List.dropLast (s.data ++ [c])) = s
  rw [List.dropLast_concat]

/-- C9: `_get_ttl_seconds` converts suffix-qualified durations to seconds
(`Ns` → N, `Nm` → 60·N, `Nh` → 3600·N, `Nd` → 86400·N, bare integer → itself),
the policy default `'1h'` resolves to 3600 seconds, and `set` stores an
explicit `ttl` argument unchanged and otherwise the converted policy TTL. -/
theorem ttl_resolution :
    (∀ (s : String) (k : Int), pyInt s = .ok k →
        getTtlSeconds (s ++ "s") = .ok k
      ∧ getTtlSeconds (s ++ "m") = .ok (k * 60)
      ∧ getTtlSeconds (s ++ "h") = .ok (k * 3600)
      ∧ getTtlSeconds (s ++ "d") = .ok (k * 86400))
  ∧ (∀ (s : String) (k : Int), pyInt s = .ok k →
        lastChar? s ≠ some 's' → lastChar? s ≠ some 'm' → lastChar? s ≠ some 'h' →
        lastChar? s ≠ some 'd' → getTtlSeconds s = .ok k)
  ∧ getTtlSeconds "1h" = .ok 3600
  ∧ (∀ (cfg : CacheConfig) (st : CacheStats) (category key : String) (v : PyVal) (t : Int),
        (cacheSet cfg st true true category key v (some t)).1 = true
      ∧ ∃ e, (cacheSet cfg st true true category key v (some t)).2.2 = some e ∧ e.ttl = t)
  ∧ (∀ (cfg : CacheConfig) (st : CacheStats) (category key : String) (v : PyVal) (k : Int),
        getTtlSeconds ((((lookupAssoc cfg.cachePolicy category).getD ⟨none, none⟩).ttl).getD "1h")
          = .ok k →
        (cacheSet cfg st true true category key v none).1 = true
      ∧ ∃ e, (cacheSet cfg st true true category key v none).2.2 = some e ∧ e.ttl = k) := by
  refine ⟨?_, ?_, rfl, ?_, ?_⟩
  · intro s k h
    have hls : lastChar? (s ++ "s") = some 's' := lastChar?_append_char s 's'
    have hlm : lastChar? (s ++ "m") = some 'm' := lastChar?_append_char s 'm'
    have hlh : lastChar? (s ++ "h") = some 'h' := lastChar?_append_char s 'h'
    have hld : lastChar? (s ++ "d") = some 'd' := lastChar?_append_char s 'd'
    have hds : dropLastChar (s ++ "s") = s := dropLastChar_append_char s 's'
    have hdm : dropLastChar (s ++ "m") = s := dropLastChar_append_char s 'm'
    have hdh : dropLastChar (s ++ "h") = s := dropLastChar_append_char s 'h'
    have hdd : dropLastChar (s ++ "d") = s := dropLastChar_append_char s 'd'
    refine ⟨?_, ?_, ?_, ?_⟩ <;>
      · unfold getTtlSeconds
        simp [hls, hlm, hlh, hld, hds, hdm, hdh, hdd, h, Except.map]
  · intro s k h h1 h2 h3 h4
    unfold getTtlSeconds
    rw [if_neg h1, if_neg h2, if_neg h3, if_neg h4]
    exact h
  · intro cfg st category key v t
    exact ⟨rfl, ⟨_, rfl, rfl⟩⟩
  · intro cfg st category key v k hk
    simp only [cacheSet, hk]
    exact ⟨rfl, ⟨_, rfl, rfl⟩⟩

/-- C9 witness: `'7s'`/`'7m'`/`'7h'`/`'7d'` convert to 7, 420, 25200, 604800
seconds, a bare `'3600'` to 3600, the default `'1h'` to 3600; an explicit
`ttl=42` is stored unchanged, and the `enterprise_data` policy TTL `'7d'`
resolves to 604800 on a default `set`. -/
theorem ttl_resolution_witness :
    (getTtlSeconds ("7" ++ "s") = .ok 7
      ∧ getTtlSeconds ("7" ++ "m") = .ok (7 * 60)
      ∧ getTtlSeconds ("7" ++ "h") = .ok (7 * 3600)
      ∧ getTtlSeconds ("7" ++ "d") = .ok (7 * 86400))
  ∧ getTtlSeconds "3600" = .ok 3600
  ∧ ((cacheSet defaultConfig {} true true "session" "k" .pynone (some 42)).1 = true
      ∧ ∃ e, (cacheSet defaultConfig {} true true "session" "k" .pynone (some 42)).2.2 = some e
          ∧ e.ttl = 42)
  ∧ ((cacheSet defaultConfig {} true true "enterprise_data" "k" .pynone none).1 = true
      ∧ ∃ e, (cacheSet defaultConfig {} true true "enterprise_data" "k" .pynone none).2.2 = some e
          ∧ e.ttl = 604800) :=
  ⟨ttl_resolution.1 "7" 7 rfl,
   ttl_resolution.2.1 "3600" 3600 rfl (by decide) (by decide) (by decide) (by decide),
   ttl_resolution.2.2.2.1 defaultConfig {} "session" "k" .pynone 42,
   ttl_resolution.2.2.2.2 defaultConfig {} "enterprise_data" "k" .pynone 604800 rfl⟩

/-- The consistency score is never negative. -/
theorem consistencyScore_nonneg (cd : List (String × PyVal)) (cf : List Conflict)
    (rs : List ValResolution) : 0 ≤ calculateConsistencyScore cd cf rs := by
  unfold calculateConsistencyScore
  split
  · norm_num
  · exact le_max_left 0 _

/-- The consistency score never exceeds 1. -/
theorem consistencyScore_le_one (cd : List (String × PyVal)) (cf : List Conflict)
    (rs : List ValResolution) : calculateConsistencyScore cd cf rs ≤ 1 := by
  unfold calculateConsistencyScore
  split
  · norm_num
  · exact max_le (by norm_num) (min_le_left _ _)

/-- A list with at least as many elements as a non-empty list is non-empty. -/
theorem isEmpty_false_of_le_length {α β : Type} {l1 : List α} {l2 : List β}
    (h1 : l1.isEmpty = false) (h : l1.length ≤ l2.length) : l2.isEmpty = false := by
  rcases l1 with _ | ⟨a, t⟩
  · simp at h1
  · rcases l2 with _ | ⟨b, u⟩
    · simp at h
    · rfl

/-- C8: the reconciler's consistency score is bounded to `[0, 1]`, weakly
decreasing in the number of detected conflicts (sources and resolutions held
fixed), and weakly increasing in the number of corroborating sources and in
the number of successful auto-resolutions (the other arguments held fixed). -/
theorem consistencyScore_bounded_monotone :
    (∀ (cd : List (String × PyVal)) (cf : List Conflict) (rs : List ValResolution),
        0 ≤ calculateConsistencyScore cd cf rs ∧ calculateConsistencyScore cd cf rs ≤ 1)
  ∧ (∀ (cd : List (String × PyVal)) (cf1 cf2 : List Conflict) (rs : List ValResolution),
        cf1.length ≤ cf2.length →
        calculateConsistencyScore cd cf2 rs ≤ calculateConsistencyScore cd cf1 rs)
  ∧ (∀ (cd1 cd2 : List (String × PyVal)) (cf : List Conflict) (rs : List ValResolution),
        cd1.length ≤ cd2.length →
        calculateConsistencyScore cd1 cf rs ≤ calculateConsistencyScore cd2 cf rs)
  ∧ (∀ (cd : List (String × PyVal)) (cf : List Conflict) (rs1 rs2 : List ValResolution),
        rs1.length ≤ rs2.length →
        calculateConsistencyScore cd cf rs1 ≤ calculateConsistencyScore cd cf rs2) := by
  refine ⟨fun cd cf rs => ⟨consistencyScore_nonneg cd cf rs, consistencyScore_le_one cd cf rs⟩,
          ?_, ?_, ?_⟩
  · intro cd cf1 cf2 rs h
    by_cases hcd : cd.isEmpty
    · simp [calculateConsistencyScore, hcd]
    · simp only [calculateConsistencyScore, hcd, Bool.false_eq_true, if_false]
      apply max_le_max le_rfl
      apply min_le_min le_rfl
      have hc : ((cf1.length : ℚ)) ≤ (cf2.length : ℚ) := Nat.cast_le.mpr h
      linarith
  · intro cd1 cd2 cf rs h
    by_cases h1 : cd1.isEmpty
    · have := consistencyScore_nonneg cd2 cf rs
      simpa [calculateConsistencyScore, h1] using this
    · have h1' : cd1.isEmpty = false := Bool.eq_false_iff.mpr h1
      have h2 : cd2.isEmpty = false := isEmpty_false_of_le_length h1' h
      simp only [calculateConsistencyScore, h1', h2, Bool.false_eq_true, if_false]
      apply max_le_max le_rfl
      apply min_le_min le_rfl
      have hd : ((cd1.length : ℚ)) ≤ (cd2.length : ℚ) := Nat.cast_le.mpr h
      have hb : min (4/5 : ℚ) ((cd1.length : ℚ) * (1/5)) ≤ min (4/5) ((cd2.length : ℚ) * (1/5)) :=
        min_le_min le_rfl (by linarith)
      linarith
  · intro cd cf rs1 rs2 h
    by_cases hcd : cd.isEmpty
    · simp [calculateConsistencyScore, hcd]
    · simp only [calculateConsistencyScore, hcd, Bool.false_eq_true, if_false]
      apply max_le_max le_rfl
      apply min_le_min le_rfl
      have hr : ((rs1.length : ℚ)) ≤ (rs2.length : ℚ) := Nat.cast_le.mpr h
      linarith

/-- C8 witness: concrete instances of the bounds and of each monotonicity
direction, at one source, one conflict and one resolution. -/
theorem consistencyScore_bounded_monotone_witness :
    (0 ≤ calculateConsistencyScore [("a", .pynone)] [] []
      ∧ calculateConsistencyScore [("a", .pynone)] [] [] ≤ 1)
  ∧ calculateConsistencyScore [("a", .pynone)]
      [⟨"siren", "a", .pynone, "b", .pynone, "critical"⟩] []
      ≤ calculateConsistencyScore [("a", .pynone)] [] []
  ∧ calculateConsistencyScore [] [] []
      ≤ calculateConsistencyScore [("a", .pynone)] [] []
  ∧ calculateConsistencyScore [("a", .pynone)] [] []
      ≤ calculateConsistencyScore [("a", .pynone)] [] [⟨"x", "m", none, 1/2⟩] :=
  ⟨consistencyScore_bounded_monotone.1 [("a", .pynone)] [] [],
   consistencyScore_bounded_monotone.2.1 [("a", .pynone)] []
     [⟨"siren", "a", .pynone, "b", .pynone, "critical"⟩] [] (by norm_num),
   consistencyScore_bounded_monotone.2.2.1 [] [("a", .pynone)] [] [] (by norm_num),
   consistencyScore_bounded_monotone.2.2.2 [("a", .pynone)] [] [] [⟨"x", "m", none, 1/2⟩]
     (by norm_num)⟩

/-- Every conflict a source pair produces carries the severity computed from
its own field. -/
theorem mem_fieldConflicts_severity {c : Conflict} {n1 n2 : String}
    {d1 d2 : List (String × PyVal)} (h : c ∈ fieldConflicts n1 d1 n2 d2) :
    c.severity = getConflictSeverity c.field := by
  unfold fieldConflicts at h
  rw [List.mem_filterMap] at h
  obtain ⟨kv, _, hsome⟩ := h
  rcases hlook : lookupAssoc d2 kv.1 with _ | v2 <;> rw [hlook] at hsome <;>
    dsimp only at hsome
  · simp at hsome
  · by_cases hcons : valuesAreConsistent kv.2 v2 kv.1 = true
    · rw [if_pos hcons] at hsome
      simp at hsome
    · rw [if_neg hcons] at hsome
      obtain rfl := Option.some.inj hsome
      rfl

/-- Every detected conflict carries the severity computed from its field. -/
theorem mem_detectConflicts_severity :
    ∀ (ds : List (String × List (String × PyVal))) (c : Conflict),
      c ∈ detectConflicts ds → c.severity = getConflictSeverity c.field := by
  intro ds
  induction ds with
  | nil => intro c h; simp [detectConflicts] at h
  | cons hd tl ih =>
      intro c h
      obtain ⟨n1, d1⟩ := hd
      rw [show detectConflicts ((n1, d1) :: tl)
            = (tl.flatMap fun nd => fieldConflicts n1 d1 nd.1 nd.2) ++ detectConflicts tl
          from rfl, List.mem_append] at h
      rcases h with h | h
      · rw [List.mem_flatMap] at h
        obtain ⟨nd, _, hc⟩ := h
        exact mem_fieldConflicts_severity hc
      · exact ih c h

/-- C6 (amended): every conflict produced by `_detect_conflicts` has severity
in `{critical, important, minor}`, derived from the field's criticality:
identifier fields (`siren`, `id`) give `critical`, display fields (`name`,
`url`) give `important`, all other fields give `minor`. -/
theorem detectConflicts_severity_rules :
    ∀ (ds : List (String × List (String × PyVal))) (c : Conflict),
      c ∈ detectConflicts ds →
      c.severity = getConflictSeverity c.field
    ∧ (c.severity = "critical" ∨ c.severity = "important" ∨ c.severity = "minor")
    ∧ ((c.field = "siren" ∨ c.field = "id") → c.severity = "critical")
    ∧ ((c.field = "name" ∨ c.field = "url") → c.severity = "important")
    ∧ (c.field ≠ "siren" → c.field ≠ "id" → c.field ≠ "name" → c.field ≠ "url" →
        c.severity = "minor") := by
  intro ds c h
  have hs := mem_detectConflicts_severity ds c h
  refine ⟨hs, ?_, ?_, ?_, ?_⟩
  · rw [hs]; unfold getConflictSeverity
    split_ifs <;> simp
  · intro hf; rw [hs]; unfold getConflictSeverity
    rw [if_pos hf]
  · intro hf; rw [hs]; unfold getConflictSeverity
    have hni : ¬ (c.field = "siren" ∨ c.field = "id") := by
      rcases hf with hf | hf <;> rw [hf] <;> decide
    rw [if_neg hni, if_pos hf]
  · intro h1 h2 h3 h4; rw [hs]; unfold getConflictSeverity
    rw [if_neg (not_or.mpr ⟨h1, h2⟩), if_neg (not_or.mpr ⟨h3, h4⟩)]

/-- C6 witness: two sources disagreeing on `name` yield exactly one conflict,
and it satisfies the severity rules (it is `important`). -/
theorem detectConflicts_severity_rules_witness :
    (⟨"name", "a", .pystr "X", "b", .pystr "Y", "important"⟩ : Conflict).severity
        = getConflictSeverity
            (⟨"name", "a", .pystr "X", "b", .pystr "Y", "important"⟩ : Conflict).field
    ∧ ((⟨"name", "a", .pystr "X", "b", .pystr "Y", "important"⟩ : Conflict).severity = "critical"
        ∨ (⟨"name", "a", .pystr "X", "b", .pystr "Y", "important"⟩ : Conflict).severity = "important"
        ∨ (⟨"name", "a", .pystr "X", "b", .pystr "Y", "important"⟩ : Conflict).severity = "minor")
    ∧ (((⟨"name", "a", .pystr "X", "b", .pystr "Y", "important"⟩ : Conflict).field = "siren"
          ∨ (⟨"name", "a", .pystr "X", "b", .pystr "Y", "important"⟩ : Conflict).field = "id") →
        (⟨"name", "a", .pystr "X", "b", .pystr "Y", "important"⟩ : Conflict).severity = "critical")
    ∧ (((⟨"name", "a", .pystr "X", "b", .pystr "Y", "important"⟩ : Conflict).field = "name"
          ∨ (⟨"name", "a", .pystr "X", "b", .pystr "Y", "important"⟩ : Conflict).field = "url") →
        (⟨"name", "a", .pystr "X", "b", .pystr "Y", "important"⟩ : Conflict).severity = "important")
    ∧ ((⟨"name", "a", .pystr "X", "b", .pystr "Y", "important"⟩ : Conflict).field ≠ "siren" →
        (⟨"name", "a", .pystr "X", "b", .pystr "Y", "important"⟩ : Conflict).field ≠ "id" →
        (⟨"name", "a", .pystr "X", "b", .pystr "Y", "important"⟩ : Conflict).field ≠ "name" →
        (⟨"name", "a", .pystr "X", "b", .pystr "Y", "important"⟩ : Conflict).field ≠ "url" →
        (⟨"name", "a", .pystr "X", "b", .pystr "Y", "important"⟩ : Conflict).severity = "minor") :=
  detectConflicts_severity_rules
    [("a", [("name", .pystr "X")]), ("b", [("name", .pystr "Y")])]
    ⟨"name", "a", .pystr "X", "b", .pystr "Y", "important"⟩
    (by rw [show detectConflicts [("a", [("name", .pystr "X")]), ("b", [("name", .pystr "Y")])]
              = [⟨"name", "a", .pystr "X", "b", .pystr "Y", "important"⟩] from rfl]
        exact List.mem_singleton_self _)

/-- C6 counterexample: a `name` disagreement produces a conflict whose
severity `"important"` is outside the claimed set
`{low, medium, high, critical}` (and `minor` conflicts exist likewise, so the
claimed severity vocabulary does not match the code's). -/
theorem detectConflicts_severity_vocabulary_cex :
    detectConflicts [("a", [("name", .pystr "X")]), ("b", [("name", .pystr "Y")])]
      = [⟨"name", "a", .pystr "X", "b", .pystr "Y", "important"⟩]
  ∧ "important" ∉ (["low", "medium", "high", "critical"] : List String) :=
  ⟨rfl, by decide⟩

/-- C7 (amended): conflict detection compares values per field: identifier
(`siren`) values are consistent exactly when equal after whitespace strip;
names exactly when equal after uppercase-and-strip normalization; URLs exactly
when equal after lowercasing, stripping, removal of trailing slashes and
removal of `www.` — the scheme is NOT ignored, so `http://` vs `https://`
versions of one URL are inconsistent. -/
theorem valuesAreConsistent_field_rules :
    (∀ a b : String, valuesAreConsistent (.pystr a) (.pystr b) "siren"
        = (pyStrip a == pyStrip b))
  ∧ (∀ a b : String, valuesAreConsistent (.pystr a) (.pystr b) "name"
        = (pyStrip (pyUpper a) == pyStrip (pyUpper b)))
  ∧ (∀ a b : String, valuesAreConsistent (.pystr a) (.pystr b) "url"
        = (pyRemoveWWW (pyRstripSlash (pyStrip (pyLower a)))
            == pyRemoveWWW (pyRstripSlash (pyStrip (pyLower b)))))
  ∧ valuesAreConsistent (.pystr "http://example.com") (.pystr "https://example.com") "url"
      = false := by
  refine ⟨?_, ?_, ?_, rfl⟩ <;>
  · intro a b
    by_cases hab : a = b
    · subst hab
      simp [valuesAreConsistent, pyEqV]
    · have hne : (a == b) = false := beq_eq_false_iff_ne.mpr hab
      simp only [valuesAreConsistent, pyEqV, pyStr, hne, Bool.false_eq_true, if_false]
      rfl

/-- C7 counterexample: two URLs differing only in the `http` vs `https` scheme
are reported as a conflict — the comparison is not scheme-insensitive. -/
theorem url_scheme_conflict_cex :
    valuesAreConsistent (.pystr "http://example.com") (.pystr "https://example.com") "url" = false
  ∧ detectConflicts
      [("a", [("url", .pystr "http://example.com")]),
       ("b", [("url", .pystr "https://example.com")])]
      = [⟨"url", "a", .pystr "http://example.com", "b", .pystr "https://example.com",
          "important"⟩] :=
  ⟨rfl, rfl⟩

/-- Every source priority is at least the default 0.3. -/
theorem sourcePriorities_lb (s : String) : 3/10 ≤ sourcePriorities s := by
  unfold sourcePriorities
  split_ifs <;> norm_num

/-- The best priority never decreases along the scan. -/
theorem priorityScan_fst_le :
    ∀ (values : List ValueInfo) (bv : Option PyVal) (bp : ℚ) (bs : Option String),
      bp ≤ (priorityScan values bv bp bs).2.1 := by
  intro values
  induction values with
  | nil => intro bv bp bs; exact le_refl _
  | cons vi rest ih =>
      intro bv bp bs
      simp only [priorityScan]
      split_ifs with h
      · exact le_trans (le_of_lt h) (ih _ _ _)
      · exact ih _ _ _

/-- The scan's final best priority dominates every scanned candidate. -/
theorem priorityScan_mem_le :
    ∀ (values : List ValueInfo) (bv : Option PyVal) (bp : ℚ) (bs : Option String)
      (vj : ValueInfo), vj ∈ values → priorityOf vj ≤ (priorityScan values bv bp bs).2.1 := by
  intro values
  induction values with
  | nil => intro bv bp bs vj h; simp at h
  | cons vi rest ih =>
      intro bv bp bs vj hmem
      simp only [priorityScan]
      rcases List.mem_cons.mp hmem with rfl | hmem'
      · split_ifs with h
        · exact priorityScan_fst_le rest _ _ _
        · exact le_trans (le_of_not_lt h) (priorityScan_fst_le rest _ _ _)
      · split_ifs with h
        · exact ih _ _ _ vj hmem'
        · exact ih _ _ _ vj hmem'

/-- The scan either keeps its accumulator or returns the value, priority and
source of some scanned candidate. -/
theorem priorityScan_result :
    ∀ (values : List ValueInfo) (bv : Option PyVal) (bp : ℚ) (bs : Option String),
      priorityScan values bv bp bs = (bv, bp, bs)
    ∨ ∃ vi ∈ values, priorityScan values bv bp bs
        = (vi.value, priorityOf vi, some (vi.source.getD "unknown")) := by
  intro values
  induction values with
  | nil => intro bv bp bs; left; rfl
  | cons vi rest ih =>
      intro bv bp bs
      simp only [priorityScan]
      split_ifs with h
      · rcases ih vi.value (sourcePriorities (vi.source.getD "unknown"))
            (some (vi.source.getD "unknown")) with heq | ⟨vj, hvj, heq⟩
        · right; exact ⟨vi, List.mem_cons_self _ _, heq⟩
        · right; exact ⟨vj, List.mem_cons_of_mem _ hvj, heq⟩
      · rcases ih bv bp bs with heq | ⟨vj, hvj, heq⟩
        · left; exact heq
        · right; exact ⟨vj, List.mem_cons_of_mem _ hvj, heq⟩

/-- C4: for the identifier field `siren` with a non-empty candidate list,
`_resolve_single_conflict` resolves by source priority: the resolution carries
the maximal priority among the candidates and the value/source of a candidate
attaining it; in particular an `inpi` (authoritative registry) value beats a
`web` value. -/
theorem siren_resolved_by_source_priority :
    (∀ values : List ValueInfo, values ≠ [] →
      ∃ res, resolveSingleConflict "siren" values = some res
        ∧ res.method = "source_priority"
        ∧ (∀ vj ∈ values, priorityOf vj ≤ res.confidence)
        ∧ ∃ vi ∈ values, priorityOf vi = res.confidence
            ∧ res.chosen_value = vi.value
            ∧ res.chosen_source = some (vi.source.getD "unknown"))
  ∧ (∀ (v1 v2 : PyVal) (c1 c2 : Option ℚ),
      resolveSingleConflict "siren"
        [⟨some v1, some "inpi", c1⟩, ⟨some v2, some "web", c2⟩]
        = some ⟨"siren", some v1, some "inpi", "Source prioritaire (inpi)", 9/10,
                 "source_priority"⟩) := by
  constructor
  · intro values hne
    have hempty : values.isEmpty = false := by
      rcases values with _ | ⟨v0, rest⟩
      · exact absurd rfl hne
      · rfl
    refine ⟨resolveBySourcePriority "siren" values, ?_, rfl, ?_, ?_⟩
    · simp [resolveSingleConflict, hempty]
    · intro vj hj
      exact priorityScan_mem_le values none (-1) none vj hj
    · rcases priorityScan_result values none (-1) none with heq | ⟨vi, hvi, heq⟩
      · rcases values with _ | ⟨v0, rest⟩
        · exact absurd rfl hne
        · exfalso
          have h1 : priorityOf v0 ≤ (priorityScan (v0 :: rest) none (-1) none).2.1 :=
            priorityScan_mem_le _ _ _ _ _ (List.mem_cons_self _ _)
          rw [heq] at h1
          have h2 : (3/10 : ℚ) ≤ priorityOf v0 := sourcePriorities_lb _
          have : (3/10 : ℚ) ≤ -1 := le_trans h2 h1
          norm_num at this
      · refine ⟨vi, hvi, ?_, ?_, ?_⟩
        · show priorityOf vi = (priorityScan values none (-1) none).2.1
          rw [heq]
        · show (priorityScan values none (-1) none).1 = vi.value
          rw [heq]
        · show (priorityScan values none (-1) none).2.2 = some (vi.source.getD "unknown")
          rw [heq]
  · intro v1 v2 c1 c2
    have hinpi : sourcePriorities "inpi" = 9/10 := rfl
    have hweb : sourcePriorities "web" = 6/10 := rfl
    have hscan : priorityScan [⟨some v1, some "inpi", c1⟩, ⟨some v2, some "web", c2⟩]
        none (-1) none = (some v1, 9/10, some "inpi") := by
      simp only [priorityScan, Option.getD_some, hinpi, hweb]
      norm_num
    have h0 : resolveSingleConflict "siren"
          [⟨some v1, some "inpi", c1⟩, ⟨some v2, some "web", c2⟩]
        = some (resolveBySourcePriority "siren"
            [⟨some v1, some "inpi", c1⟩, ⟨some v2, some "web", c2⟩]) := rfl
    rw [h0]
    simp only [resolveBySourcePriority, hscan, optStr]
    rfl

/-- C4 witness: one `web` candidate resolves with the `web` priority 0.6 and
its own value and source. -/
theorem siren_resolved_by_source_priority_witness :
    ∃ res, resolveSingleConflict "siren" [⟨some (.pystr "123"), some "web", none⟩] = some res
      ∧ res.method = "source_priority"
      ∧ (∀ vj ∈ [(⟨some (.pystr "123"), some "web", none⟩ : ValueInfo)],
          priorityOf vj ≤ res.confidence)
      ∧ ∃ vi ∈ [(⟨some (.pystr "123"), some "web", none⟩ : ValueInfo)],
          priorityOf vi = res.confidence
          ∧ res.chosen_value = vi.value
          ∧ res.chosen_source = some (vi.source.getD "unknown") :=
  siren_resolved_by_source_priority.1 [⟨some (.pystr "123"), some "web", none⟩] (by simp)

/-- The letter `a` is emitted verbatim by the JSON string escaper. -/
theorem jsonEscapeChar_a : jsonEscapeChar 'a' = ['a'] := rfl

/-- A run of `a`s is emitted verbatim by the JSON string escaper. -/
theorem jsonEscape_replicate_a (n : Nat) :
    jsonEscape (List.replicate n 'a') = List.replicate n 'a' := by
  induction n with
  | zero => rfl
  | succ m ih =>
      rw [List.replicate_succ]
      unfold jsonEscape at ih ⊢
      rw [List.flatMap_cons, jsonEscapeChar_a, ih]
      rfl

/-- A 1030-character payload string (large enough to cross the 1024-byte
compression threshold once serialized). -/
def bigStr : String := ⟨List.replicate 1030 'a'⟩

/-- The payload as a one-element Python tuple. -/
def vBigTuple : PyVal := .pytuple (.cons (.pystr bigStr) .nil)

/-- The payload as a one-element Python list. -/
def vBigList : PyVal := .pylist (.cons (.pystr bigStr) .nil)

/-- Serialized size of the big tuple: `["aaa…a"]` is 1034 bytes. -/
theorem byteLen_serialize_vBigTuple : byteLen (serializeData vBigTuple) = 1034 := by
  show ('[' :: ('"' :: jsonEscape (List.replicate 1030 'a') ++ ['"']) ++ [']']).length = 1034
  rw [jsonEscape_replicate_a]
  simp only [List.length_cons, List.length_append, List.length_replicate, List.length_nil]

/-- Serialized size of the big list: also 1034 bytes. -/
theorem byteLen_serialize_vBigList : byteLen (serializeData vBigList) = 1034 := by
  show ('[' :: ('"' :: jsonEscape (List.replicate 1030 'a') ++ ['"']) ++ [']']).length = 1034
  rw [jsonEscape_replicate_a]
  simp only [List.length_cons, List.length_append, List.length_replicate, List.length_nil]

/-- Core of the cache round trip: when the policy compresses this payload and
the TTL resolves, `get` after `set` returns exactly the JSON round-trip image
of the stored value (whatever the configured compression algorithm is, since
decompression falls back to the raw payload). -/
theorem cache_set_get_core :
    ∀ (cfg : CacheConfig) (st st' : CacheStats) (category key : String) (v : PyVal) (k : Int),
      shouldCompress cfg (serializeData v)
          ((lookupAssoc cfg.cachePolicy category).getD ⟨none, none⟩) = true →
      getTtlSeconds ((((lookupAssoc cfg.cachePolicy category).getD ⟨none, none⟩).ttl).getD "1h")
        = .ok k →
      ∃ e, (cacheSet cfg st true true category key v none).2.2 = some e
        ∧ (cacheGet cfg st' true (.ok (some e.data)) category key).1
            = some (fromJsonV (toJsonV v)) := by
  intro cfg st st' category key v k hsc httl
  refine ⟨⟨buildKey cfg category key, k, compressData cfg (serializeData v)⟩, ?_, ?_⟩
  · simp [cacheSet, hsc, httl]
  · have hdata : decompressData (compressData cfg (CacheBytes.jsonBytes (toJsonV v)))
        = CacheBytes.jsonBytes (toJsonV v) := by
      unfold compressData decompressData
      split_ifs <;> rfl
    simp [cacheGet, serializeData, hdata, deserializeData]

/-- C5 (amended): for every tuple-free value whose category policy compresses
it (serialized size above the threshold) and whose TTL resolves, `get` after
`set` returns a value equal to the one stored — serialization plus gzip
round-trips transparently on the JSON-faithful fragment.  (Values containing
tuples come back with lists in their place, so equality fails for them; see
the counterexample.) -/
theorem cache_roundtrip_tupleFree :
    ∀ (cfg : CacheConfig) (st st' : CacheStats) (category key : String) (v : PyVal) (k : Int),
      ((lookupAssoc cfg.cachePolicy category).getD ⟨none, none⟩).compress.getD false = true →
      cfg.compressionThreshold.getD 1024 < byteLen (serializeData v) →
      getTtlSeconds ((((lookupAssoc cfg.cachePolicy category).getD ⟨none, none⟩).ttl).getD "1h")
        = .ok k →
      tupleFreeV v = true →
      ∃ e, (cacheSet cfg st true true category key v none).2.2 = some e
        ∧ (cacheGet cfg st' true (.ok (some e.data)) category key).1 = some v := by
  intro cfg st st' category key v k hcomp hsize httl htf
  have hsc : shouldCompress cfg (serializeData v)
      ((lookupAssoc cfg.cachePolicy category).getD ⟨none, none⟩) = true := by
    unfold shouldCompress
    rw [hcomp]
    simp [hsize]
  obtain ⟨e, hset, hget⟩ := cache_set_get_core cfg st st' category key v k hsc httl
  rw [fromJson_toJson_V v htf] at hget
  exact ⟨e, hset, hget⟩

/-- C5 witness: a 1030-character string inside a list, stored under
`enterprise_data` (policy `compress=true`, TTL `7d`), is returned unchanged by
`get` after `set`. -/
theorem cache_roundtrip_tupleFree_witness :
    ∃ e, (cacheSet defaultConfig {} true true "enterprise_data" "k" vBigList none).2.2 = some e
      ∧ (cacheGet defaultConfig {} true (.ok (some e.data)) "enterprise_data" "k").1
          = some vBigList :=
  cache_roundtrip_tupleFree defaultConfig {} {} "enterprise_data" "k" vBigList 604800
    rfl
    (by rw [byteLen_serialize_vBigList]; decide)
    rfl
    rfl

/-- C5 counterexample: the same payload stored as a tuple satisfies the
claim's hypotheses (`compress=true`, size 1034 > threshold 1024) but `get`
after `set` returns the list version, which is not equal to the stored tuple —
`json.dumps(default=str)` encodes tuples as JSON arrays and `json.loads`
decodes them as lists. -/
theorem cache_roundtrip_tuple_cex :
    ((lookupAssoc defaultConfig.cachePolicy "enterprise_data").getD ⟨none, none⟩).compress.getD
        false = true
  ∧ defaultConfig.compressionThreshold.getD 1024 < byteLen (serializeData vBigTuple)
  ∧ ∃ e, (cacheSet defaultConfig {} true true "enterprise_data" "k" vBigTuple none).2.2 = some e
      ∧ (cacheGet defaultConfig {} true (.ok (some e.data)) "enterprise_data" "k").1
          = some vBigList
      ∧ vBigList ≠ vBigTuple := by
  refine ⟨rfl, ?_, ?_⟩
  · rw [byteLen_serialize_vBigTuple]
    decide
  · have hsc : shouldCompress defaultConfig (serializeData vBigTuple)
        ((lookupAssoc defaultConfig.cachePolicy "enterprise_data").getD ⟨none, none⟩) = true := by
      unfold shouldCompress
      rw [byteLen_serialize_vBigTuple]
      rfl
    obtain ⟨e, hset, hget⟩ :=
      cache_set_get_core defaultConfig {} {} "enterprise_data" "k" vBigTuple 604800 hsc rfl
    have hval : fromJsonV (toJsonV vBigTuple) = vBigList := rfl
    rw [hval] at hget
    exact ⟨e, hset, hget, fun h => PyVal.noConfusion h⟩

end AgenticSpec
